import Mathlib

/-!
Verification of the `RigDef::SequentialImporter` node-index resolver
(`src/source/rig_file_input_output/RigDef_SequentialImporter.h`).

The header declares the data model (NodeMapEntry, Message, the counter and
table fields) and gives inline bodies for `Disable`, `IsEnabled` and the
message-count accessors.  The bodies of the remaining operations
(`AddNumberedNode`, `AddNamedNode`, `AddGeneratedNode`,
`GenerateNodesForWheel`, `ResolveNode`, `ResolveNodeByIndex`,
`GetNodeArrayOffset`, `AddMessage`) live in a translation unit that is not
part of the sources; those operations are modelled from the specification,
as marked in their doc comments.
-/

namespace RigDef

/-- Keyword tags for the sections that define or generate nodes, mirroring the
relevant constructors of the `RigDef::File::Keyword` enum used by the
importer (plus a representative non-node keyword and the invalid sentinel). -/
inductive Keyword
  | KEYWORD_NODES
  | KEYWORD_NODES2
  | KEYWORD_CINECAM
  | KEYWORD_WHEELS
  | KEYWORD_WHEELS2
  | KEYWORD_MESHWHEELS
  | KEYWORD_MESHWHEELS2
  | KEYWORD_FLEXBODYWHEELS
  | KEYWORD_BEAMS
  | KEYWORD_INVALID
deriving DecidableEq, Repr

/-- The `NodeMapEntry::OriginDetail` enum from the header: disambiguates the
tyre/rim nodes generated per wheel ray; `DETAIL_UNDEFINED` is the
not-applicable sentinel. -/
inductive OriginDetail
  | DETAIL_WHEEL_TYRE_A
  | DETAIL_WHEEL_TYRE_B
  | DETAIL_WHEEL_RIM_A
  | DETAIL_WHEEL_RIM_B
  | DETAIL_UNDEFINED
deriving DecidableEq, Repr

/-- A node identity as written in the file (`Node::Id`): either an integer,
a symbolic name, or invalid/absent (used for generated nodes, which have no
source-file identity). -/
inductive NodeId
  | num (n : Nat)
  | named (name : String)
  | invalid
deriving DecidableEq, Repr

/-- The `NodeMapEntry` struct from the header: one canonical-table entry
recording a node's provenance. -/
structure NodeMapEntry where
  origin_keyword : Keyword
  origin_detail : OriginDetail
  node_id : NodeId
  node_sub_index : Nat
deriving DecidableEq, Repr

/-- Default entry used with `List.getD` when reading the table at an index. -/
def defaultNodeMapEntry : NodeMapEntry :=
  ⟨Keyword.KEYWORD_INVALID, OriginDetail.DETAIL_UNDEFINED, NodeId.invalid, 0⟩

/-- The `Message::Type` severity enum from the header (`Type` is a reserved
word in Lean, hence the flattened name).  The spec lists the message
severities as info, warning, error and fatal; the numeric `TYPE_INVALID`
sentinel of the C++ enum is never used as the severity of a recorded message
and is omitted. -/
inductive MessageType
  | TYPE_INFO
  | TYPE_WARNING
  | TYPE_ERROR
  | TYPE_FATAL_ERROR
deriving DecidableEq, Repr

/-- The `Message` struct from the header: one diagnostic record. -/
structure Message where
  message : String
  keyword : Keyword
  type : MessageType
  module_name : String
deriving DecidableEq, Repr

/-- The `SequentialImporter` state: the canonical node table, the named-node
index (`std::map<std::string, NodeMapEntry>`, modelled as an association
list), the eight per-category counters, the enabled flag, and the
diagnostics state.  C++ counters are non-negative throughout (they are only
ever zeroed and incremented), so they are modelled as `Nat`.  The
`m_current_module` shared pointer is modelled by the module name, which is
all the diagnostics record needs. -/
structure SequentialImporter where
  m_all_nodes : List NodeMapEntry
  m_named_nodes : List (String × NodeMapEntry)
  m_num_numbered_nodes : Nat
  m_num_named_nodes : Nat
  m_num_cinecam_nodes : Nat
  m_num_wheels_nodes : Nat
  m_num_wheels2_nodes : Nat
  m_num_meshwheels_nodes : Nat
  m_num_meshwheels2_nodes : Nat
  m_num_flexbodywheels_nodes : Nat
  m_enabled : Bool
  m_total_resolved : Nat
  m_num_resolved_to_self : Nat
  m_current_keyword : Keyword
  m_current_module_name : String
  m_messages : List Message
  m_messages_num_errors : Nat
  m_messages_num_warnings : Nat
  m_messages_num_other : Nat
deriving DecidableEq, Repr

/-- Modelled from the spec: `init(enabled)` starts a fresh pass — empty
table, empty name index, zeroed counters and message log, with the given
enabled flag. -/
def Init (enabled : Bool) : SequentialImporter :=
  { m_all_nodes := []
    m_named_nodes := []
    m_num_numbered_nodes := 0
    m_num_named_nodes := 0
    m_num_cinecam_nodes := 0
    m_num_wheels_nodes := 0
    m_num_wheels2_nodes := 0
    m_num_meshwheels_nodes := 0
    m_num_meshwheels2_nodes := 0
    m_num_flexbodywheels_nodes := 0
    m_enabled := enabled
    m_total_resolved := 0
    m_num_resolved_to_self := 0
    m_current_keyword := Keyword.KEYWORD_INVALID
    m_current_module_name := "_Root_"
    m_messages := []
    m_messages_num_errors := 0
    m_messages_num_warnings := 0
    m_messages_num_other := 0 }

/-- Translated from the inline body of `Disable()` in the header: sets
`m_enabled = false` and clears `m_all_nodes`; nothing else is touched. -/
def Disable (s : SequentialImporter) : SequentialImporter :=
  { s with m_enabled := false, m_all_nodes := [] }

/-- Translated from the inline body of `IsEnabled()` in the header. -/
def IsEnabled (s : SequentialImporter) : Bool :=
  s.m_enabled

/-- Translated from the inline body of `GetMessagesNumErrors()` in the header. -/
def GetMessagesNumErrors (s : SequentialImporter) : Nat :=
  s.m_messages_num_errors

/-- Translated from the inline body of `GetMessagesNumWarnings()` in the header. -/
def GetMessagesNumWarnings (s : SequentialImporter) : Nat :=
  s.m_messages_num_warnings

/-- Translated from the inline body of `GetMessagesNumOther()` in the header. -/
def GetMessagesNumOther (s : SequentialImporter) : Nat :=
  s.m_messages_num_other

/-- Modelled from the spec: `AddMessage` appends one diagnostic to the
ordered log (keyword and module taken from the current-position fields) and
increments the counter for its severity: `errors` for error and fatal-error
messages (a fatal error is an error severity), `warnings` for warnings,
`other` for info.  No message aborts the pass. -/
def AddMessage (s : SequentialImporter) (msg_type : MessageType) (text : String) :
    SequentialImporter :=
  let msg : Message :=
    { message := text
      keyword := s.m_current_keyword
      type := msg_type
      module_name := s.m_current_module_name }
  match msg_type with
  | MessageType.TYPE_ERROR =>
      { s with m_messages := s.m_messages ++ [msg],
               m_messages_num_errors := s.m_messages_num_errors + 1 }
  | MessageType.TYPE_FATAL_ERROR =>
      { s with m_messages := s.m_messages ++ [msg],
               m_messages_num_errors := s.m_messages_num_errors + 1 }
  | MessageType.TYPE_WARNING =>
      { s with m_messages := s.m_messages ++ [msg],
               m_messages_num_warnings := s.m_messages_num_warnings + 1 }
  | MessageType.TYPE_INFO =>
      { s with m_messages := s.m_messages ++ [msg],
               m_messages_num_other := s.m_messages_num_other + 1 }

/-- Position of the first table entry whose `node_id` equals `target`,
counting from `i`; `none` when absent. -/
def findNodeIdIndex (target : NodeId) : List NodeMapEntry → Nat → Option Nat
  | [], _ => none
  | e :: rest, i =>
      if e.node_id = target then some i else findNodeIdIndex target rest (i + 1)

/-- Canonical index of the named node `nm`, searching the table for the entry
holding that name (the canonical position of an entry IS its position in
`m_all_nodes`). -/
def lookupNamedIndex (s : SequentialImporter) (nm : String) : Option Nat :=
  findNodeIdIndex (NodeId.named nm) s.m_all_nodes 0

/-- Canonical index of the numbered node registered under original id `n`. -/
def lookupNumberedIndex (s : SequentialImporter) (n : Nat) : Option Nat :=
  findNodeIdIndex (NodeId.num n) s.m_all_nodes 0

/-- True when original numbered id `n` already has a table entry. -/
def numberedRegistered (s : SequentialImporter) (n : Nat) : Bool :=
  (lookupNumberedIndex s n).isSome

/-- True when `nm` is already a key of the named-node index. -/
def namedRegistered (s : SequentialImporter) (nm : String) : Bool :=
  s.m_named_nodes.any (fun p => p.1 == nm)

/-- Modelled from the spec: `AddNumberedNode` is a no-op returning failure
while disabled; on a duplicate id it emits a warning (the pass continues and
the duplicate is ignored for array placement) and returns failure; otherwise
it appends one entry tagged as a numbered node and increments the
numbered-node counter. -/
def AddNumberedNode (s : SequentialImporter) (number : Nat) :
    SequentialImporter × Bool :=
  if s.m_enabled = false then (s, false)
  else if numberedRegistered s number then
    (AddMessage s MessageType.TYPE_WARNING
      ("Duplicate numbered node: " ++ toString number), false)
  else
    ({ s with
        m_all_nodes := s.m_all_nodes ++
          [⟨Keyword.KEYWORD_NODES, OriginDetail.DETAIL_UNDEFINED,
            NodeId.num number, 0⟩],
        m_num_numbered_nodes := s.m_num_numbered_nodes + 1 }, true)

/-- Modelled from the spec: `AddNamedNode` is a no-op returning failure while
disabled; on a duplicate name it emits a warning and returns failure;
otherwise it appends one entry tagged as a named node, inserts it into the
name index, and increments the named-node counter. -/
def AddNamedNode (s : SequentialImporter) (name : String) :
    SequentialImporter × Bool :=
  if s.m_enabled = false then (s, false)
  else if namedRegistered s name then
    (AddMessage s MessageType.TYPE_WARNING
      ("Duplicate node name: " ++ name), false)
  else
    let entry : NodeMapEntry :=
      ⟨Keyword.KEYWORD_NODES2, OriginDetail.DETAIL_UNDEFINED,
        NodeId.named name, 0⟩
    ({ s with
        m_all_nodes := s.m_all_nodes ++ [entry],
        m_named_nodes := s.m_named_nodes ++ [(name, entry)],
        m_num_named_nodes := s.m_num_named_nodes + 1 }, true)

/-- Adds `k` to the per-category counter selected by `kw` (no counter for
keywords outside the eight node-generating categories). -/
def bumpKeywordCounter (s : SequentialImporter) (kw : Keyword) (k : Nat) :
    SequentialImporter :=
  match kw with
  | Keyword.KEYWORD_NODES => { s with m_num_numbered_nodes := s.m_num_numbered_nodes + k }
  | Keyword.KEYWORD_NODES2 => { s with m_num_named_nodes := s.m_num_named_nodes + k }
  | Keyword.KEYWORD_CINECAM => { s with m_num_cinecam_nodes := s.m_num_cinecam_nodes + k }
  | Keyword.KEYWORD_WHEELS => { s with m_num_wheels_nodes := s.m_num_wheels_nodes + k }
  | Keyword.KEYWORD_WHEELS2 => { s with m_num_wheels2_nodes := s.m_num_wheels2_nodes + k }
  | Keyword.KEYWORD_MESHWHEELS => { s with m_num_meshwheels_nodes := s.m_num_meshwheels_nodes + k }
  | Keyword.KEYWORD_MESHWHEELS2 => { s with m_num_meshwheels2_nodes := s.m_num_meshwheels2_nodes + k }
  | Keyword.KEYWORD_FLEXBODYWHEELS => { s with m_num_flexbodywheels_nodes := s.m_num_flexbodywheels_nodes + k }
  | _ => s

/-- Modelled from the spec: `AddGeneratedNode` appends one synthetic entry
(no source-file identity) for the generating construct and bumps that
construct's counter; a no-op while disabled. -/
def AddGeneratedNode (s : SequentialImporter) (generated_from : Keyword)
    (detail : OriginDetail) : SequentialImporter :=
  if s.m_enabled = false then s
  else
    let sub := (bumpKeywordCounter s generated_from 0).m_num_cinecam_nodes
    { bumpKeywordCounter s generated_from 1 with
        m_all_nodes := s.m_all_nodes ++
          [⟨generated_from, detail, NodeId.invalid, sub⟩] }

/-- Nodes generated per wheel ray by each wheel family, as documented in the
header (`wheels[num_rays*2]`, `wheels2[num_rays*4]`, `meshwheels[num_rays*2]`,
`meshwheels2[num_rays*2]`, `flexbodywheels[num_rays*4]`). -/
def nodesPerRay (kw : Keyword) : Nat :=
  match kw with
  | Keyword.KEYWORD_WHEELS => 2
  | Keyword.KEYWORD_WHEELS2 => 4
  | Keyword.KEYWORD_MESHWHEELS => 2
  | Keyword.KEYWORD_MESHWHEELS2 => 2
  | Keyword.KEYWORD_FLEXBODYWHEELS => 4
  | _ => 0

/-- True for the five wheel-family keywords. -/
def isWheelKeyword (kw : Keyword) : Bool :=
  match kw with
  | Keyword.KEYWORD_WHEELS => true
  | Keyword.KEYWORD_WHEELS2 => true
  | Keyword.KEYWORD_MESHWHEELS => true
  | Keyword.KEYWORD_MESHWHEELS2 => true
  | Keyword.KEYWORD_FLEXBODYWHEELS => true
  | _ => false

/-- Modelled from the spec: the fixed per-ray tyre/rim detail pattern —
tyre A/B then rim A/B for the four-node families, tyre A/B for the two-node
families. -/
def detailPattern (kw : Keyword) : List OriginDetail :=
  if nodesPerRay kw = 4 then
    [OriginDetail.DETAIL_WHEEL_TYRE_A, OriginDetail.DETAIL_WHEEL_TYRE_B,
     OriginDetail.DETAIL_WHEEL_RIM_A, OriginDetail.DETAIL_WHEEL_RIM_B]
  else
    [OriginDetail.DETAIL_WHEEL_TYRE_A, OriginDetail.DETAIL_WHEEL_TYRE_B]

/-- True for the four tyre/rim details (everything except the sentinel). -/
def isTyreRimDetail (d : OriginDetail) : Bool :=
  match d with
  | OriginDetail.DETAIL_UNDEFINED => false
  | _ => true

/-- Modelled from the spec: `GenerateNodesForWheel` appends
`num_rays * nodesPerRay kw` entries — the entry for ray `r` and in-ray
position `m` carries sub-index `r` and the `m`-th tyre/rim detail of the
family's pattern (entry `j` overall is ray `j / k`, pattern slot `j % k`) —
and bumps the family counter by the number of appended nodes, plus one extra
referenceable node accounted for the rigidity linkage when
`has_rigidity_node` is set.  A no-op while disabled. -/
def GenerateNodesForWheel (s : SequentialImporter) (generated_from : Keyword)
    (num_rays : Nat) (has_rigidity_node : Bool) : SequentialImporter :=
  if s.m_enabled = false then s
  else
    let k := nodesPerRay generated_from
    let newEntries : List NodeMapEntry :=
      (List.range (num_rays * k)).map (fun j =>
        ⟨generated_from,
         (detailPattern generated_from).getD (j % k) OriginDetail.DETAIL_UNDEFINED,
         NodeId.invalid, j / k⟩)
    { bumpKeywordCounter s generated_from
        (num_rays * k + (if has_rigidity_node then 1 else 0)) with
      m_all_nodes := s.m_all_nodes ++ newEntries }

/-- A node reference as the resolver sees it (`Node::Ref`): a symbolic name,
a raw numeric file id (not yet a canonical index), an already-resolved
canonical index, or the unresolved sentinel, which is none of the former
(in particular not a valid canonical index). -/
inductive NodeRef
  | name (nm : String)
  | rawId (n : Nat)
  | resolved (i : Nat)
  | unresolved
deriving DecidableEq, Repr

/-- Modelled from the spec: numeric references are resolved by looking the
number up as the original numbered-node id; on a hit the canonical position
is returned (and the resolved-statistics counter bumped), on a miss an error
diagnostic is emitted and the unresolved sentinel returned. -/
def ResolveNodeByIndex (s : SequentialImporter) (index : Nat) :
    SequentialImporter × NodeRef :=
  match lookupNumberedIndex s index with
  | some idx =>
      ({ s with m_total_resolved := s.m_total_resolved + 1 }, NodeRef.resolved idx)
  | none =>
      (AddMessage s MessageType.TYPE_ERROR
        ("Cannot resolve numbered node reference: " ++ toString index),
       NodeRef.unresolved)

/-- Modelled from the spec: `ResolveNode` passes references through unchanged
while disabled; returns already-resolved references (and the unresolved
sentinel) unchanged; resolves names through the name index and numbers
through `ResolveNodeByIndex`, emitting an error diagnostic and returning the
unresolved sentinel on a miss.  It never aborts the pass. -/
def ResolveNode (s : SequentialImporter) (r : NodeRef) :
    SequentialImporter × NodeRef :=
  if s.m_enabled = false then (s, r)
  else
    match r with
    | NodeRef.resolved i => (s, NodeRef.resolved i)
    | NodeRef.unresolved => (s, NodeRef.unresolved)
    | NodeRef.name nm =>
        match lookupNamedIndex s nm with
        | some idx =>
            ({ s with m_total_resolved := s.m_total_resolved + 1 },
             NodeRef.resolved idx)
        | none =>
            (AddMessage s MessageType.TYPE_ERROR
              ("Cannot resolve named node reference: " ++ nm),
             NodeRef.unresolved)
    | NodeRef.rawId n => ResolveNodeByIndex s n

/-- The eight node categories in canonical order. -/
inductive Category
  | numbered
  | named
  | cinecam
  | wheels
  | wheels2
  | meshwheels
  | meshwheels2
  | flexbodywheels
deriving DecidableEq, Repr

/-- The fixed canonical category order (header: nodes, nodes2, cinecam,
wheels, wheels2, meshwheels, meshwheels2, flexbodywheels). -/
def canonicalOrder : List Category :=
  [Category.numbered, Category.named, Category.cinecam, Category.wheels,
   Category.wheels2, Category.meshwheels, Category.meshwheels2,
   Category.flexbodywheels]

/-- The per-category counter of the importer state. -/
def categoryCount (s : SequentialImporter) : Category → Nat
  | Category.numbered => s.m_num_numbered_nodes
  | Category.named => s.m_num_named_nodes
  | Category.cinecam => s.m_num_cinecam_nodes
  | Category.wheels => s.m_num_wheels_nodes
  | Category.wheels2 => s.m_num_wheels2_nodes
  | Category.meshwheels => s.m_num_meshwheels_nodes
  | Category.meshwheels2 => s.m_num_meshwheels2_nodes
  | Category.flexbodywheels => s.m_num_flexbodywheels_nodes

/-- The section keyword that generates each category's nodes. -/
def keywordOfCategory : Category → Keyword
  | Category.numbered => Keyword.KEYWORD_NODES
  | Category.named => Keyword.KEYWORD_NODES2
  | Category.cinecam => Keyword.KEYWORD_CINECAM
  | Category.wheels => Keyword.KEYWORD_WHEELS
  | Category.wheels2 => Keyword.KEYWORD_WHEELS2
  | Category.meshwheels => Keyword.KEYWORD_MESHWHEELS
  | Category.meshwheels2 => Keyword.KEYWORD_MESHWHEELS2
  | Category.flexbodywheels => Keyword.KEYWORD_FLEXBODYWHEELS

/-- Modelled from the spec: `GetNodeArrayOffset` returns each category's
canonical starting offset, accumulated exactly as the C++ fall-through
switch does — each case adds the counters of every earlier section; keywords
outside the eight node-generating sections fall through to offset 0. -/
def GetNodeArrayOffset (s : SequentialImporter) (keyword : Keyword) : Nat :=
  match keyword with
  | Keyword.KEYWORD_NODES => 0
  | Keyword.KEYWORD_NODES2 => s.m_num_numbered_nodes
  | Keyword.KEYWORD_CINECAM => s.m_num_numbered_nodes + s.m_num_named_nodes
  | Keyword.KEYWORD_WHEELS =>
      s.m_num_numbered_nodes + s.m_num_named_nodes + s.m_num_cinecam_nodes
  | Keyword.KEYWORD_WHEELS2 =>
      s.m_num_numbered_nodes + s.m_num_named_nodes + s.m_num_cinecam_nodes +
        s.m_num_wheels_nodes
  | Keyword.KEYWORD_MESHWHEELS =>
      s.m_num_numbered_nodes + s.m_num_named_nodes + s.m_num_cinecam_nodes +
        s.m_num_wheels_nodes + s.m_num_wheels2_nodes
  | Keyword.KEYWORD_MESHWHEELS2 =>
      s.m_num_numbered_nodes + s.m_num_named_nodes + s.m_num_cinecam_nodes +
        s.m_num_wheels_nodes + s.m_num_wheels2_nodes + s.m_num_meshwheels_nodes
  | Keyword.KEYWORD_FLEXBODYWHEELS =>
      s.m_num_numbered_nodes + s.m_num_named_nodes + s.m_num_cinecam_nodes +
        s.m_num_wheels_nodes + s.m_num_wheels2_nodes + s.m_num_meshwheels_nodes +
        s.m_num_meshwheels2_nodes
  | _ => 0

/-- The claim's formula for a category's offset: the sum of the per-category
counters of all categories that strictly precede it in canonical order. -/
def offsetByPrefixSum (s : SequentialImporter) (c : Category) : Nat :=
  ((canonicalOrder.takeWhile (fun d => decide (d ≠ c))).map (categoryCount s)).sum

/-- One registration step, used to state table-evolution invariants. -/
inductive RegOp
  | numbered (n : Nat)
  | named (name : String)
  | generated (kw : Keyword) (detail : OriginDetail)
  | wheel (kw : Keyword) (num_rays : Nat) (has_rigidity_node : Bool)

/-- Applies one registration step to the state. -/
def applyOp (s : SequentialImporter) : RegOp → SequentialImporter
  | RegOp.numbered n => (AddNumberedNode s n).1
  | RegOp.named nm => (AddNamedNode s nm).1
  | RegOp.generated kw detail => AddGeneratedNode s kw detail
  | RegOp.wheel kw nr rig => GenerateNodesForWheel s kw nr rig

/-- Applies a sequence of registration steps from left to right. -/
def applyOps (s : SequentialImporter) : List RegOp → SequentialImporter
  | [] => s
  | op :: rest => applyOps (applyOp s op) rest

/-- True when `r` is a reference the table cannot resolve: a symbolic name
absent from the name lookup, or a numeric id with no numbered registration. -/
def danglingRef (s : SequentialImporter) (r : NodeRef) : Bool :=
  match r with
  | NodeRef.name nm => (lookupNamedIndex s nm).isNone
  | NodeRef.rawId n => (lookupNumberedIndex s n).isNone
  | _ => false

/-- Number of table entries registered under original numbered id `n`. -/
def countNumbered (s : SequentialImporter) (n : Nat) : Nat :=
  s.m_all_nodes.countP (fun e => decide (e.node_id = NodeId.num n))

/-- The per-category counter selected by a section keyword (0 for keywords
outside the eight node-generating sections). -/
def nodeCountOfKeyword (s : SequentialImporter) (kw : Keyword) : Nat :=
  match kw with
  | Keyword.KEYWORD_NODES => s.m_num_numbered_nodes
  | Keyword.KEYWORD_NODES2 => s.m_num_named_nodes
  | Keyword.KEYWORD_CINECAM => s.m_num_cinecam_nodes
  | Keyword.KEYWORD_WHEELS => s.m_num_wheels_nodes
  | Keyword.KEYWORD_WHEELS2 => s.m_num_wheels2_nodes
  | Keyword.KEYWORD_MESHWHEELS => s.m_num_meshwheels_nodes
  | Keyword.KEYWORD_MESHWHEELS2 => s.m_num_meshwheels2_nodes
  | Keyword.KEYWORD_FLEXBODYWHEELS => s.m_num_flexbodywheels_nodes
  | _ => 0

/-- Everything C2 requires of resolving a dangling reference: the unresolved
sentinel comes back (never a canonical index, in particular never index 0),
exactly one error-severity diagnostic is appended, the error counter grows
by exactly one, the other counters and the table are untouched, and the pass
is still running. -/
def UnresolvedOutcome (s : SequentialImporter) (r : NodeRef) : Prop :=
  (ResolveNode s r).2 = NodeRef.unresolved ∧
  (∀ i, (ResolveNode s r).2 ≠ NodeRef.resolved i) ∧
  (ResolveNode s r).1.m_messages_num_errors = s.m_messages_num_errors + 1 ∧
  (∃ m, (ResolveNode s r).1.m_messages = s.m_messages ++ [m] ∧
    m.type = MessageType.TYPE_ERROR) ∧
  (ResolveNode s r).1.m_messages_num_warnings = s.m_messages_num_warnings ∧
  (ResolveNode s r).1.m_messages_num_other = s.m_messages_num_other ∧
  (ResolveNode s r).1.m_all_nodes = s.m_all_nodes ∧
  (ResolveNode s r).1.m_enabled = true

/-- Everything C5 requires of re-registering an already-registered numbered
id: failure is reported, the table and the numbered-node counter are
untouched (so the id keeps exactly its original entries — in particular
exactly one when it had one), one warning-severity (not fatal) diagnostic is
appended, and the pass keeps running. -/
def DuplicateNumberedOutcome (s : SequentialImporter) (n : Nat) : Prop :=
  (AddNumberedNode s n).2 = false ∧
  (AddNumberedNode s n).1.m_all_nodes = s.m_all_nodes ∧
  (AddNumberedNode s n).1.m_num_numbered_nodes = s.m_num_numbered_nodes ∧
  countNumbered (AddNumberedNode s n).1 n = countNumbered s n ∧
  (countNumbered s n = 1 → countNumbered (AddNumberedNode s n).1 n = 1) ∧
  (∃ m, (AddNumberedNode s n).1.m_messages = s.m_messages ++ [m] ∧
    m.type = MessageType.TYPE_WARNING) ∧
  (AddNumberedNode s n).1.m_messages_num_warnings = s.m_messages_num_warnings + 1 ∧
  (AddNumberedNode s n).1.m_messages_num_errors = s.m_messages_num_errors ∧
  (AddNumberedNode s n).1.m_enabled = true

/-- Everything C4 requires of one wheel registration: the table grows by
exactly `num_rays * nodesPerRay kw` appended entries, entry `j` of the new
block carries its ray sub-index `j / k` and a tyre/rim origin detail, the
per-ray node count is 2 for the single-rim families and 4 for the families
with separate tyre and rim nodes, and the family counter accounts for the
appended nodes plus one extra referenceable node when the rigidity linkage
is present. -/
def WheelOutcome (s : SequentialImporter) (kw : Keyword) (nr : Nat)
    (rig : Bool) : Prop :=
  (GenerateNodesForWheel s kw nr rig).m_all_nodes.length =
      s.m_all_nodes.length + nr * nodesPerRay kw ∧
  ((kw = Keyword.KEYWORD_WHEELS ∨ kw = Keyword.KEYWORD_MESHWHEELS ∨
      kw = Keyword.KEYWORD_MESHWHEELS2) → nodesPerRay kw = 2) ∧
  ((kw = Keyword.KEYWORD_WHEELS2 ∨ kw = Keyword.KEYWORD_FLEXBODYWHEELS) →
      nodesPerRay kw = 4) ∧
  (∀ j, j < nr * nodesPerRay kw →
    ((GenerateNodesForWheel s kw nr rig).m_all_nodes.getD
        (s.m_all_nodes.length + j) defaultNodeMapEntry).node_sub_index =
          j / nodesPerRay kw ∧
    isTyreRimDetail ((GenerateNodesForWheel s kw nr rig).m_all_nodes.getD
        (s.m_all_nodes.length + j) defaultNodeMapEntry).origin_detail = true ∧
    ((GenerateNodesForWheel s kw nr rig).m_all_nodes.getD
        (s.m_all_nodes.length + j) defaultNodeMapEntry).origin_keyword = kw) ∧
  nodeCountOfKeyword (GenerateNodesForWheel s kw nr rig) kw =
      nodeCountOfKeyword s kw + nr * nodesPerRay kw +
        (if rig then 1 else 0)

/-- Number of error-severity messages in a log (a fatal error is an error
severity). -/
def errorsInLog (msgs : List Message) : Nat :=
  msgs.countP (fun m => decide (m.type = MessageType.TYPE_ERROR ∨
    m.type = MessageType.TYPE_FATAL_ERROR))

/-- Number of warning-severity messages in a log. -/
def warningsInLog (msgs : List Message) : Nat :=
  msgs.countP (fun m => decide (m.type = MessageType.TYPE_WARNING))

/-- Number of info-severity messages in a log. -/
def othersInLog (msgs : List Message) : Nat :=
  msgs.countP (fun m => decide (m.type = MessageType.TYPE_INFO))

/-- The three message counters agree with the log: `error_count` is the
number of error-severity messages, `warning_count` the number of
warning-severity messages, `other_count` the number of info-severity
messages. -/
def MessagesConsistent (s : SequentialImporter) : Prop :=
  s.m_messages_num_errors = errorsInLog s.m_messages ∧
  s.m_messages_num_warnings = warningsInLog s.m_messages ∧
  s.m_messages_num_other = othersInLog s.m_messages

/-- AddMessage never touches the node table, whatever the severity. -/
theorem addMessage_m_all_nodes (s : SequentialImporter) (t : MessageType)
    (txt : String) : (AddMessage s t txt).m_all_nodes = s.m_all_nodes := by
  cases t <;> rfl

/-- AddMessage never touches the enabled flag, whatever the severity. -/
theorem addMessage_m_enabled (s : SequentialImporter) (t : MessageType)
    (txt : String) : (AddMessage s t txt).m_enabled = s.m_enabled := by
  cases t <;> rfl

/-- Reading a mapped range at an in-bounds position yields the mapped value. -/
theorem getD_range_map {α : Type} (f : Nat → α) (d : α) (m j : Nat)
    (h : j < m) : ((List.range m).map f).getD j d = f j := by
  rw [List.getD_eq_getElem _ d (by simpa using h)]
  simp

/-- C1: for every category in the fixed canonical order and at any point
during or after the build phase, `GetNodeArrayOffset` of the category's
section keyword equals the sum of the per-category counters of all
categories that precede it in that order. -/
theorem getNodeArrayOffset_eq_prefix_sum (s : SequentialImporter)
    (c : Category) :
    GetNodeArrayOffset s (keywordOfCategory c) = offsetByPrefixSum s c := by
  cases c <;>
    simp [GetNodeArrayOffset, offsetByPrefixSum, canonicalOrder, categoryCount,
      keywordOfCategory, List.takeWhile_cons] <;>
    omega

/-- C10: `Disable` only sets the enabled flag to false and clears the node
table; the named-node index, all eight per-category counters, the message
log, the three message counters and the remaining bookkeeping fields keep
the values they had before the call. -/
theorem disable_frame (s : SequentialImporter) :
    (Disable s).m_enabled = false ∧
    (Disable s).m_all_nodes = [] ∧
    (Disable s).m_named_nodes = s.m_named_nodes ∧
    (Disable s).m_num_numbered_nodes = s.m_num_numbered_nodes ∧
    (Disable s).m_num_named_nodes = s.m_num_named_nodes ∧
    (Disable s).m_num_cinecam_nodes = s.m_num_cinecam_nodes ∧
    (Disable s).m_num_wheels_nodes = s.m_num_wheels_nodes ∧
    (Disable s).m_num_wheels2_nodes = s.m_num_wheels2_nodes ∧
    (Disable s).m_num_meshwheels_nodes = s.m_num_meshwheels_nodes ∧
    (Disable s).m_num_meshwheels2_nodes = s.m_num_meshwheels2_nodes ∧
    (Disable s).m_num_flexbodywheels_nodes = s.m_num_flexbodywheels_nodes ∧
    (Disable s).m_total_resolved = s.m_total_resolved ∧
    (Disable s).m_num_resolved_to_self = s.m_num_resolved_to_self ∧
    (Disable s).m_current_keyword = s.m_current_keyword ∧
    (Disable s).m_current_module_name = s.m_current_module_name ∧
    (Disable s).m_messages = s.m_messages ∧
    (Disable s).m_messages_num_errors = s.m_messages_num_errors ∧
    (Disable s).m_messages_num_warnings = s.m_messages_num_warnings ∧
    (Disable s).m_messages_num_other = s.m_messages_num_other :=
  ⟨rfl, rfl, rfl, rfl, rfl, rfl, rfl, rfl, rfl, rfl, rfl, rfl, rfl, rfl, rfl,
   rfl, rfl, rfl, rfl⟩

/-- C7: after `Disable`, `IsEnabled` is false and the node table is empty;
`Disable` is idempotent; and on the disabled state every registration is a
no-op reporting failure and every resolution passes the reference through
with the state unchanged. -/
theorem disable_noop (s : SequentialImporter) (op : RegOp) (r : NodeRef)
    (n : Nat) (nm : String) :
    IsEnabled (Disable s) = false ∧
    (Disable s).m_all_nodes = [] ∧
    Disable (Disable s) = Disable s ∧
    applyOp (Disable s) op = Disable s ∧
    ResolveNode (Disable s) r = (Disable s, r) ∧
    (AddNumberedNode (Disable s) n).2 = false ∧
    (AddNamedNode (Disable s) nm).2 = false := by
  refine ⟨rfl, rfl, rfl, ?_, ?_, ?_, ?_⟩
  · cases op <;>
      simp [applyOp, AddNumberedNode, AddNamedNode, AddGeneratedNode,
        GenerateNodesForWheel, Disable]
  · simp [ResolveNode, Disable]
  · simp [AddNumberedNode, Disable]
  · simp [AddNamedNode, Disable]

/-- C3: a reference already carrying a canonical index is returned
unchanged, and resolution is idempotent — feeding the output of
`ResolveNode` back in (in the post-resolution state) changes neither the
state nor the reference. -/
theorem resolveNode_idempotent (s : SequentialImporter) (i : Nat)
    (r : NodeRef) :
    ResolveNode s (NodeRef.resolved i) = (s, NodeRef.resolved i) ∧
    ResolveNode (ResolveNode s r).1 (ResolveNode s r).2 = ResolveNode s r := by
  constructor
  · by_cases hE : s.m_enabled = false <;> simp [ResolveNode, hE]
  · by_cases hE : s.m_enabled = false
    · simp [ResolveNode, hE]
    · cases r with
      | resolved j => simp [ResolveNode, hE]
      | unresolved => simp [ResolveNode, hE]
      | name nm =>
          cases h : lookupNamedIndex s nm with
          | some idx => simp [ResolveNode, hE, h]
          | none =>
              simp [ResolveNode, hE, h, addMessage_m_enabled]
      | rawId k =>
          cases h : lookupNumberedIndex s k with
          | some idx => simp [ResolveNode, ResolveNodeByIndex, hE, h]
          | none =>
              simp [ResolveNode, ResolveNodeByIndex, hE, h,
                addMessage_m_enabled]

/-- Each single registration step only ever appends to the node table. -/
theorem applyOp_table_extends (s : SequentialImporter) (op : RegOp) :
    ∃ t, (applyOp s op).m_all_nodes = s.m_all_nodes ++ t := by
  cases op with
  | numbered n =>
      by_cases hE : s.m_enabled = false
      · exact ⟨[], by simp [applyOp, AddNumberedNode, hE]⟩
      · by_cases hD : numberedRegistered s n
        · exact ⟨[], by simp [applyOp, AddNumberedNode, hE, hD,
            addMessage_m_all_nodes]⟩
        · exact ⟨_, by simp [applyOp, AddNumberedNode, hE, hD]; rfl⟩
  | named nm =>
      by_cases hE : s.m_enabled = false
      · exact ⟨[], by simp [applyOp, AddNamedNode, hE]⟩
      · by_cases hD : namedRegistered s nm
        · exact ⟨[], by simp [applyOp, AddNamedNode, hE, hD,
            addMessage_m_all_nodes]⟩
        · exact ⟨_, by simp [applyOp, AddNamedNode, hE, hD]; rfl⟩
  | generated kw detail =>
      by_cases hE : s.m_enabled = false
      · exact ⟨[], by simp [applyOp, AddGeneratedNode, hE]⟩
      · exact ⟨_, by simp [applyOp, AddGeneratedNode, hE]; rfl⟩
  | wheel kw nr rig =>
      by_cases hE : s.m_enabled = false
      · exact ⟨[], by simp [applyOp, GenerateNodesForWheel, hE]⟩
      · exact ⟨_, by simp [applyOp, GenerateNodesForWheel, hE]; rfl⟩

/-- C6: the node table is strictly append-only within a pass — after any
sequence of further registrations (numbered, named, generated or wheel) the
old table is a prefix of the new one, so every entry already at canonical
index `i` is still read at index `i`. -/
theorem table_append_only (s : SequentialImporter) (ops : List RegOp) :
    (∃ t, (applyOps s ops).m_all_nodes = s.m_all_nodes ++ t) ∧
    (∀ i, i < s.m_all_nodes.length →
      (applyOps s ops).m_all_nodes.getD i defaultNodeMapEntry =
        s.m_all_nodes.getD i defaultNodeMapEntry) := by
  have main : ∃ t, (applyOps s ops).m_all_nodes = s.m_all_nodes ++ t := by
    induction ops generalizing s with
    | nil => exact ⟨[], by simp [applyOps]⟩
    | cons op rest ih =>
        obtain ⟨t1, h1⟩ := applyOp_table_extends s op
        obtain ⟨t2, h2⟩ := ih (applyOp s op)
        exact ⟨t1 ++ t2, by
          simp only [applyOps, h2, h1, List.append_assoc]⟩
  refine ⟨main, ?_⟩
  intro i hi
  obtain ⟨t, ht⟩ := main
  rw [ht, List.getD_append _ _ _ _ hi]

/-- C2: resolving any reference whose name or numeric id is absent from the
node table emits exactly one error-severity diagnostic, increments the error
count by exactly one, returns the unresolved sentinel (never a canonical
index, in particular never index 0), and leaves the pass running. -/
theorem resolveNode_dangling (s : SequentialImporter) (r : NodeRef)
    (hE : s.m_enabled = true) (hU : danglingRef s r = true) :
    UnresolvedOutcome s r := by
  have hE' : ¬s.m_enabled = false := by simp [hE]
  cases r with
  | resolved i => simp [danglingRef] at hU
  | unresolved => simp [danglingRef] at hU
  | name nm =>
      have h : lookupNamedIndex s nm = none := by
        simpa [danglingRef, Option.isNone_iff_eq_none] using hU
      refine ⟨?_, ?_, ?_, ?_, ?_, ?_, ?_, ?_⟩ <;>
        simp [UnresolvedOutcome, ResolveNode, hE', h, AddMessage, hE]
  | rawId n =>
      have h : lookupNumberedIndex s n = none := by
        simpa [danglingRef, Option.isNone_iff_eq_none] using hU
      refine ⟨?_, ?_, ?_, ?_, ?_, ?_, ?_, ?_⟩ <;>
        simp [UnresolvedOutcome, ResolveNode, ResolveNodeByIndex, hE', h,
          AddMessage, hE]

/-- C2 witness: an empty table resolves the name "missing" to the unresolved
sentinel with exactly one error diagnostic. -/
theorem resolveNode_dangling_witness :
    UnresolvedOutcome (Init true) (NodeRef.name "missing") :=
  resolveNode_dangling (Init true) (NodeRef.name "missing") rfl rfl

/-- C5: a second registration of an already-registered numbered id fails
with a warning-severity (not fatal) diagnostic, the pass continues, and the
node table keeps exactly the entries it had — in particular exactly one
entry for that id when the first registration was the only one. -/
theorem addNumberedNode_duplicate (s : SequentialImporter) (n : Nat)
    (hE : s.m_enabled = true) (hD : numberedRegistered s n = true) :
    DuplicateNumberedOutcome s n := by
  have hE' : ¬s.m_enabled = false := by simp [hE]
  refine ⟨?_, ?_, ?_, ?_, ?_, ?_, ?_, ?_, ?_⟩ <;>
    simp [DuplicateNumberedOutcome, AddNumberedNode, hE', hD, AddMessage, hE,
      countNumbered]

/-- C5 witness: registering numbered node 7 twice — the second registration
is refused with a warning and the table keeps exactly one entry for id 7. -/
theorem addNumberedNode_duplicate_witness :
    DuplicateNumberedOutcome (AddNumberedNode (Init true) 7).1 7 :=
  addNumberedNode_duplicate (AddNumberedNode (Init true) 7).1 7 (by decide)
    (by decide)

/-- C6 witness: after registering numbered node 3, a later named
registration leaves the entry at canonical index 0 unchanged. -/
theorem table_append_only_witness :
    (applyOps (AddNumberedNode (Init true) 3).1
        [RegOp.named "axle_l"]).m_all_nodes.getD 0 defaultNodeMapEntry =
      (AddNumberedNode (Init true) 3).1.m_all_nodes.getD 0
        defaultNodeMapEntry :=
  (table_append_only (AddNumberedNode (Init true) 3).1
    [RegOp.named "axle_l"]).2 0 (by decide)

/-- Every wheel family generates at least one node per ray. -/
theorem nodesPerRay_pos (kw : Keyword) (hW : isWheelKeyword kw = true) :
    0 < nodesPerRay kw := by
  cases kw <;> simp_all [isWheelKeyword, nodesPerRay]

/-- Within a wheel family's per-ray pattern, every slot is a tyre/rim
detail. -/
theorem detailPattern_getD_tyreRim (kw : Keyword)
    (hW : isWheelKeyword kw = true) (m : Nat) (hm : m < nodesPerRay kw) :
    isTyreRimDetail ((detailPattern kw).getD m
      OriginDetail.DETAIL_UNDEFINED) = true := by
  cases kw <;> simp [isWheelKeyword] at hW <;>
    (simp only [nodesPerRay] at hm; interval_cases m <;> rfl)

/-- C4: one wheel registration appends exactly `num_rays * k` table entries
(`k = 2` for wheels, meshwheels and meshwheels2, `k = 4` for wheels2 and
flexbodywheels), each tagged with its ray sub-index and a tyre/rim detail,
and accounts one extra referenceable node in the family counter when the
rigidity linkage is present. -/
theorem generateNodesForWheel_spec (s : SequentialImporter) (kw : Keyword)
    (nr : Nat) (rig : Bool) (hW : isWheelKeyword kw = true)
    (hE : s.m_enabled = true) : WheelOutcome s kw nr rig := by
  have hE' : ¬s.m_enabled = false := by simp [hE]
  have hk : 0 < nodesPerRay kw := nodesPerRay_pos kw hW
  have hGen : (GenerateNodesForWheel s kw nr rig).m_all_nodes =
      s.m_all_nodes ++ (List.range (nr * nodesPerRay kw)).map (fun j =>
        ⟨kw, (detailPattern kw).getD (j % nodesPerRay kw)
            OriginDetail.DETAIL_UNDEFINED,
         NodeId.invalid, j / nodesPerRay kw⟩) := by
    simp [GenerateNodesForWheel, hE']
  refine ⟨?_, ?_, ?_, ?_, ?_⟩
  · rw [hGen]; simp
  · intro h; rcases h with h | h | h <;> subst h <;> rfl
  · intro h; rcases h with h | h <;> subst h <;> rfl
  · intro j hj
    have hle : s.m_all_nodes.length ≤ s.m_all_nodes.length + j :=
      Nat.le_add_right _ _
    have hsub : s.m_all_nodes.length + j - s.m_all_nodes.length = j := by omega
    rw [hGen, List.getD_append_right _ _ _ _ hle, hsub,
      getD_range_map _ _ _ _ hj]
    exact ⟨rfl, detailPattern_getD_tyreRim kw hW _ (Nat.mod_lt _ hk), rfl⟩
  · cases kw <;>
      first
        | exact absurd hW (by decide)
        | (simp [GenerateNodesForWheel, hE', bumpKeywordCounter,
            nodeCountOfKeyword, nodesPerRay]; rw [Nat.add_assoc])

/-- C4 witness: a 4-ray wheels-family registration on a fresh pass grows the
table by 8 entries with the stated tags and counter accounting. -/
theorem generateNodesForWheel_spec_witness :
    WheelOutcome (Init true) Keyword.KEYWORD_WHEELS 4 false :=
  generateNodesForWheel_spec (Init true) Keyword.KEYWORD_WHEELS 4 false rfl
    rfl

/-- C8: names and numbers live in disjoint lookup spaces — for any numbered
id `n` and any name (even one spelling the same number), registering both
produces two distinct table entries, and a number-reference and a
name-reference each resolve independently to their own entry. -/
theorem name_number_disjoint (n : Nat) (str : String) :
    (AddNamedNode (AddNumberedNode (Init true) n).1 str).1.m_all_nodes.length
        = 2 ∧
    ((AddNamedNode (AddNumberedNode (Init true) n).1 str).1.m_all_nodes.getD 0
        defaultNodeMapEntry).node_id = NodeId.num n ∧
    ((AddNamedNode (AddNumberedNode (Init true) n).1 str).1.m_all_nodes.getD 1
        defaultNodeMapEntry).node_id = NodeId.named str ∧
    NodeId.num n ≠ NodeId.named str ∧
    (ResolveNode (AddNamedNode (AddNumberedNode (Init true) n).1 str).1
        (NodeRef.rawId n)).2 = NodeRef.resolved 0 ∧
    (ResolveNode (AddNamedNode (AddNumberedNode (Init true) n).1 str).1
        (NodeRef.name str)).2 = NodeRef.resolved 1 := by
  refine ⟨?_, ?_, ?_, ?_, ?_, ?_⟩ <;>
    simp [AddNumberedNode, AddNamedNode, Init, numberedRegistered,
      namedRegistered, lookupNumberedIndex, lookupNamedIndex, findNodeIdIndex,
      ResolveNode, ResolveNodeByIndex, List.getD]

/-- C8 witness: registering name "5" and numbered node 5 yields two distinct
entries, independently resolvable. -/
theorem name_number_disjoint_witness :
    (AddNamedNode (AddNumberedNode (Init true) 5).1 "5").1.m_all_nodes.length
        = 2 ∧
    ((AddNamedNode (AddNumberedNode (Init true) 5).1 "5").1.m_all_nodes.getD 0
        defaultNodeMapEntry).node_id = NodeId.num 5 ∧
    ((AddNamedNode (AddNumberedNode (Init true) 5).1 "5").1.m_all_nodes.getD 1
        defaultNodeMapEntry).node_id = NodeId.named "5" ∧
    NodeId.num 5 ≠ NodeId.named "5" ∧
    (ResolveNode (AddNamedNode (AddNumberedNode (Init true) 5).1 "5").1
        (NodeRef.rawId 5)).2 = NodeRef.resolved 0 ∧
    (ResolveNode (AddNamedNode (AddNumberedNode (Init true) 5).1 "5").1
        (NodeRef.name "5")).2 = NodeRef.resolved 1 :=
  name_number_disjoint 5 "5"

/-- C9: every `AddMessage` call appends exactly one message to the ordered
log and increments exactly one severity counter, preserving the invariant
that the error counter counts the error-severity messages (fatal errors
included), the warning counter the warnings, and the other counter the info
messages; the invariant holds of a fresh pass, and no message flips the
enabled flag or otherwise aborts the pass. -/
theorem addMessage_contract (s : SequentialImporter) (t : MessageType)
    (txt : String) :
    (AddMessage s t txt).m_messages.length = s.m_messages.length + 1 ∧
    (∃ m, (AddMessage s t txt).m_messages = s.m_messages ++ [m] ∧
      m.type = t) ∧
    (AddMessage s t txt).m_messages_num_errors +
        (AddMessage s t txt).m_messages_num_warnings +
        (AddMessage s t txt).m_messages_num_other =
      s.m_messages_num_errors + s.m_messages_num_warnings +
        s.m_messages_num_other + 1 ∧
    (MessagesConsistent s → MessagesConsistent (AddMessage s t txt)) ∧
    (AddMessage s t txt).m_enabled = s.m_enabled ∧
    (∀ b, MessagesConsistent (Init b)) := by
  refine ⟨?_, ?_, ?_, ?_, addMessage_m_enabled s t txt, ?_⟩
  · cases t <;> simp [AddMessage]
  · cases t with
    | TYPE_INFO =>
        exact ⟨⟨txt, s.m_current_keyword, MessageType.TYPE_INFO,
          s.m_current_module_name⟩, rfl, rfl⟩
    | TYPE_WARNING =>
        exact ⟨⟨txt, s.m_current_keyword, MessageType.TYPE_WARNING,
          s.m_current_module_name⟩, rfl, rfl⟩
    | TYPE_ERROR =>
        exact ⟨⟨txt, s.m_current_keyword, MessageType.TYPE_ERROR,
          s.m_current_module_name⟩, rfl, rfl⟩
    | TYPE_FATAL_ERROR =>
        exact ⟨⟨txt, s.m_current_keyword, MessageType.TYPE_FATAL_ERROR,
          s.m_current_module_name⟩, rfl, rfl⟩
  · cases t <;> simp [AddMessage] <;> omega
  · rintro ⟨h1, h2, h3⟩
    refine ⟨?_, ?_, ?_⟩ <;>
      cases t <;>
        simp [AddMessage, errorsInLog, warningsInLog, othersInLog,
          List.countP_append, List.countP_cons, h1, h2, h3]
  · intro b
    exact ⟨rfl, rfl, rfl⟩

/-- C9 witness: recording an error on a fresh pass keeps the counters in
step with the log. -/
theorem addMessage_contract_witness :
    MessagesConsistent (AddMessage (Init true) MessageType.TYPE_ERROR
      "missing node") :=
  (addMessage_contract (Init true) MessageType.TYPE_ERROR
    "missing node").2.2.2.1 ⟨rfl, rfl, rfl⟩

end RigDef
